import Mathlib

/-!
Shallow embedding of `src/v2/connection.ts` from the
companion-module-getontime-ontime repository.

JavaScript runtime values are modelled by `JSValue`. Property access
follows JavaScript semantics: reading a property of `null` or
`undefined` throws a TypeError (modelled with `Except Unit`), while
reading a missing property of any other value yields `undefined`.
Numbers are modelled as integers, matching the integral millisecond
values the ontime device sends; string-to-number coercion is not
modelled (no claim exercises it).
-/

set_option autoImplicit false

namespace Ontime

/-- A JavaScript runtime value, as needed by `connection.ts`. -/
inductive JSValue where
  | undefined
  | null
  | bool (b : Bool)
  | num (n : Int)
  | str (s : String)
  | arr (elems : List JSValue)
  | obj (fields : List (String × JSValue))

/-- Binding of a key in the field list of a modelled JS object. -/
def lookupField : List (String × JSValue) → String → Option JSValue
  | [], _ => none
  | (k2, v) :: rest, k => if k2 = k then some v else lookupField rest k

/-- Update a property binding in place, or append it, as JS assignment does. -/
def setField : List (String × JSValue) → String → JSValue → List (String × JSValue)
  | [], k, v => [(k, v)]
  | (k2, w) :: rest, k, v =>
      if k2 = k then (k, v) :: rest else (k2, w) :: setField rest k v

/-- JS property read `v.k`: throws a TypeError on `null` and `undefined`,
yields `undefined` for a missing key or a primitive base value. -/
def getProp : JSValue → String → Except Unit JSValue
  | .undefined, _ => .error ()
  | .null, _ => .error ()
  | .obj fs, k => .ok ((lookupField fs k).getD .undefined)
  | _, _ => .ok .undefined

/-- JS chained property read `v.k1.k2` (as in `self.states.timer.current`). -/
def getProp2 (v : JSValue) (k1 k2 : String) : Except Unit JSValue :=
  match getProp v k1 with
  | .error e => .error e
  | .ok w => getProp w k2

/-- Total variant of `getProp` for stating results about values on which the
read is known not to throw. -/
def propOrUndef (v : JSValue) (k : String) : JSValue :=
  match getProp v k with
  | .ok w => w
  | .error _ => .undefined

/-- JS property write `v.k = x`. On an object the binding is updated or
appended. Writing a property of a primitive is a silent no-op in
non-strict mode; the `null`/`undefined` case (which would throw) is
unreachable on every path of the source that performs a write. -/
def setProp (v : JSValue) (k : String) (x : JSValue) : JSValue :=
  match v with
  | .obj fs => .obj (setField fs k x)
  | other => other

/-- JS truthiness, as used by `if (!type)` and `if (!host || !port)`. -/
def truthy : JSValue → Bool
  | .undefined => false
  | .null => false
  | .bool b => b
  | .num n => !(n == 0)
  | .str s => !(s == "")
  | .arr _ => true
  | .obj _ => true

/-- Partial model of JS ToNumber; `none` stands for NaN. String and
object coercions are not modelled (the device sends numeric timer
values, and no claim exercises those coercions). -/
def jsToNumber : JSValue → Option Int
  | .num n => some n
  | .null => some 0
  | .bool b => some (if b then 1 else 0)
  | _ => none

/-- The comparison `x < 0` of line 80 of the source; a NaN comparison
is false in JS. -/
def jsLtZero (v : JSValue) : Bool :=
  match jsToNumber v with
  | some n => decide (n < 0)
  | none => false

/-- JS strict equality of a runtime value against a string literal,
as in `type === "ontime"`. -/
def jsStrictEqStr (v : JSValue) (s : String) : Bool :=
  match v with
  | .str t => t == s
  | _ => false

/-- JS ToString as used by template literals such as the connection URI.
The array and object renderings are approximations never reached by a
claim (config host and port are strings or numbers). -/
def jsToString : JSValue → String
  | .str s => s
  | .num n => toString n
  | .bool b => if b then "true" else "false"
  | .null => "null"
  | .undefined => "undefined"
  | .arr _ => ""
  | .obj _ => "[object Object]"

/-- Propagation of a thrown TypeError through sequenced JS statements. -/
def bindE {α β : Type} (x : Except Unit α) (f : α → Except Unit β) : Except Unit β :=
  match x with
  | .error e => .error e
  | .ok a => f a

/-- The hours/minutes/seconds display triple produced by the external
time-formatting helpers of `src/utilities.ts` (outside the embedded
core; the handlers are parameterized over them). -/
structure ReadableTime where
  hours : String
  minutes : String
  seconds : String

/-- One entry of the event directory: `{ id: evt.id, label: evt.title }`. -/
structure EventChoice where
  id : JSValue
  label : JSValue

/-- The instance fields of the module that `connection.ts` mutates:
the stored RemoteState snapshot `self.states` and the event
directory `self.events`. -/
structure ModuleState where
  states : JSValue
  events : List EventChoice

/-- Observable calls into the host platform and runtime made by the
connection manager. -/
inductive Effect where
  | updateStatus (status : String) (detail : Option String)
  | logMsg (level : String) (message : String)
  | setVariableValues (vals : List (String × JSValue))
  | checkFeedbacks (ids : List String)
  | scheduleReconnect (delayMs : Nat)
  | connectAttempt
  | clearReconnectTimer
  | closeSocket
  | startInitEvents

namespace variableId

/-- Modelled from the spec: the variable identifier enum lives in
`src/enums.ts`, which is not among the provided sources; the names below
mirror the published-variable list of spec section 4.1. The exact strings
are immaterial to every claim (claims only ask whether variables are
published at all). -/
def Time : String := "time"

def TimeHM : String := "time_hm"

def TimeH : String := "time_h"

def TimeM : String := "time_m"

def TimeS : String := "time_s"

def Clock : String := "clock"

def TimerStart : String := "timer_start"

def TimerFinish : String := "timer_finish"

def TimerDelay : String := "timer_delay"

def PlayState : String := "play_state"

def OnAir : String := "on_air"

def TitleNow : String := "title_now"

def SubtitleNow : String := "subtitle_now"

def SpeakerNow : String := "speaker_now"

def NoteNow : String := "note_now"

def TitleNext : String := "title_next"

def SubtitleNext : String := "subtitle_next"

def SpeakerNext : String := "speaker_next"

def NoteNext : String := "note_next"

def SpeakerMessage : String := "speaker_message"

def PublicMessage : String := "public_message"

def LowerMessage : String := "lower_message"

end variableId

namespace feedbackId

/-- Modelled from the spec: the feedback identifier enum lives in
`src/enums.ts`, outside the provided sources; the names mirror the
feedback list of spec section 4.1. The exact strings are immaterial to
every claim. -/
def ColorRunning : String := "state_color_running"

def ColorPaused : String := "state_color_paused"

def ColorStopped : String := "state_color_stopped"

def ColorRoll : String := "state_color_roll"

def ColorNegative : String := "timer_negative"

def OnAir : String := "on_air"

def SpeakerMessageVisible : String := "speaker_message_visible"

def PublicMessageVisible : String := "public_message_visible"

def LowerMessageVisible : String := "lower_message_visible"

end feedbackId

/-- The fixed list passed to `self.checkFeedbacks` on every ontime
state message (source lines 109-119). -/
def feedbacksOnOntime : List String :=
  [feedbackId.ColorRunning, feedbackId.ColorPaused, feedbackId.ColorStopped,
   feedbackId.ColorRoll, feedbackId.ColorNegative, feedbackId.OnAir,
   feedbackId.SpeakerMessageVisible, feedbackId.PublicMessageVisible,
   feedbackId.LowerMessageVisible]

/-- `reconnectInterval` of source line 10. -/
def reconnectInterval : Nat := 1000

/-- Whether `p` is a leading substring of `s`, on the character level. -/
def strBeginsWith (s p : String) : Bool :=
  p.data.isPrefixOf s.data

/-- Whether the host string matches the regex of source line 28,
anchored alternation of `http://` and `https://`. -/
def hasScheme (s : String) : Bool :=
  strBeginsWith s "http://" || strBeginsWith s "https://"

/-- The string `host.replace(pattern, ...)` evaluates to on line 31:
the matched leading scheme removed. -/
def stripScheme (s : String) : String :=
  if strBeginsWith s "http://" then String.mk (s.data.drop 7)
  else if strBeginsWith s "https://" then String.mk (s.data.drop 8)
  else s

/-- The synchronous body of `connect` (source lines 13-34). Inputs are
`self.config.host`, `self.config.port` and whether a previous socket
exists. The first component of the result is the URI of the newly
opened socket, `none` when the function returns early. Status strings
stand for the members of the host InstanceStatus enum. -/
def connect (host port : JSValue) (wsExists : Bool) : Option String × List Effect :=
  if !truthy host || !truthy port then
    (none, [.updateStatus "BadConfig" (some "no host and/or port defined")])
  else
    let closeOld : List Effect := if wsExists then [.closeSocket] else []
    -- Line 31 computes `host.replace(pattern, ...)` but discards the
    -- result (JS strings are immutable and the return value is never
    -- assigned), so the URI below still contains the scheme.
    let strippedHost : String :=
      if hasScheme (jsToString host) then stripScheme (jsToString host)
      else jsToString host
    let _ := strippedHost
    (some ("ws://" ++ jsToString host ++ ":" ++ jsToString port ++ "/ws"),
     [.updateStatus "Connecting" none] ++ closeOld)

/-- The destructuring `const { type, payload } = data` of source
line 64: throws on `null`/`undefined`, otherwise reads the two
properties. -/
def destructure (data : JSValue) : Except Unit (JSValue × JSValue) :=
  bindE (getProp data "type") fun ty =>
  bindE (getProp data "payload") fun payload =>
  .ok (ty, payload)

/-- The reads of `self.states.timer.*` on source lines 75-80, in
evaluation order, with `self.states` already set to the payload.
The last component is the re-read of `timer.current` on line 80. -/
def readTimer (payload : JSValue) :
    Except Unit (JSValue × JSValue × JSValue × JSValue × JSValue × JSValue) :=
  bindE (getProp2 payload "timer" "current") fun cur =>
  bindE (getProp2 payload "timer" "clock") fun clk =>
  bindE (getProp2 payload "timer" "startedAt") fun startedAt =>
  bindE (getProp2 payload "timer" "expectedFinish") fun expectedFinish =>
  bindE (getProp2 payload "timer" "addedTime") fun addedTime =>
  bindE (getProp2 payload "timer" "current") fun currentAgain =>
  .ok (cur, clk, startedAt, expectedFinish, addedTime, currentAgain)

/-- The argument object of `self.setVariableValues` (source lines
82-108). Property reads of `self.states` happen in the literal order;
any of the chained reads through `titles`, `timerMessage`,
`publicMessage` or `lowerMessage` can throw. -/
def buildVarMap (timer clock timerStart timerFinish : ReadableTime) (delay : String)
    (states : JSValue) : Except Unit (List (String × JSValue)) :=
  bindE (getProp states "playback") fun playback =>
  bindE (getProp states "onAir") fun onAir =>
  bindE (getProp2 states "titles" "titleNow") fun titleNow =>
  bindE (getProp2 states "titles" "subtitleNow") fun subtitleNow =>
  bindE (getProp2 states "titles" "presenterNow") fun speakerNow =>
  bindE (getProp2 states "titles" "noteNow") fun noteNow =>
  bindE (getProp2 states "titles" "titleNext") fun titleNext =>
  bindE (getProp2 states "titles" "subtitleNext") fun subtitleNext =>
  bindE (getProp2 states "titles" "presenterNext") fun speakerNext =>
  bindE (getProp2 states "titles" "noteNext") fun noteNext =>
  bindE (getProp2 states "timerMessage" "text") fun speakerMessage =>
  bindE (getProp2 states "publicMessage" "text") fun publicMessage =>
  bindE (getProp2 states "lowerMessage" "text") fun lowerMessage =>
  .ok [(variableId.Time, .str (timer.hours ++ ":" ++ timer.minutes ++ ":" ++ timer.seconds)),
       (variableId.TimeHM, .str (timer.hours ++ ":" ++ timer.minutes)),
       (variableId.TimeH, .str timer.hours),
       (variableId.TimeM, .str timer.minutes),
       (variableId.TimeS, .str timer.seconds),
       (variableId.Clock, .str (clock.hours ++ ":" ++ clock.minutes ++ ":" ++ clock.seconds)),
       (variableId.TimerStart,
        .str (timerStart.hours ++ ":" ++ timerStart.minutes ++ ":" ++ timerStart.seconds)),
       (variableId.TimerFinish,
        .str (timerFinish.hours ++ ":" ++ timerFinish.minutes ++ ":" ++ timerFinish.seconds)),
       (variableId.TimerDelay, .str delay),
       (variableId.PlayState, playback),
       (variableId.OnAir, onAir),
       (variableId.TitleNow, titleNow),
       (variableId.SubtitleNow, subtitleNow),
       (variableId.SpeakerNow, speakerNow),
       (variableId.NoteNow, noteNow),
       (variableId.TitleNext, titleNext),
       (variableId.SubtitleNext, subtitleNext),
       (variableId.SpeakerNext, speakerNext),
       (variableId.NoteNext, noteNext),
       (variableId.SpeakerMessage, speakerMessage),
       (variableId.PublicMessage, publicMessage),
       (variableId.LowerMessage, lowerMessage)]

/-- The `type === "ontime"` branch of the message handler (source lines
70-120). The commit `self.states = payload` of line 71 happens before
any payload field is read; a TypeError thrown by a later read leaves
the mutations made so far in place and is reported in the Boolean
component (to be swallowed by the surrounding try/catch). -/
def handleOntimeMsg (fmtTime : JSValue → ReadableTime) (fmtMs : JSValue → String)
    (st : ModuleState) (payload : JSValue) : ModuleState × List Effect × Bool :=
  let st1 : ModuleState := { st with states := payload }
  match readTimer st1.states with
  | .error _ => (st1, [], true)
  | .ok (cur, clk, startedAt, expectedFinish, addedTime, currentAgain) =>
      let st2 : ModuleState :=
        { st1 with states := setProp st1.states "isNegative" (.bool (jsLtZero currentAgain)) }
      match buildVarMap (fmtTime cur) (fmtTime clk) (fmtTime startedAt)
          (fmtTime expectedFinish) (fmtMs addedTime) st2.states with
      | .error _ => (st2, [], true)
      | .ok vals =>
          (st2, [.setVariableValues vals, .checkFeedbacks feedbacksOnOntime], false)

/-- `ws.onmessage` (source lines 58-137). The input is the outcome of
`JSON.parse(event.data)`: `none` when the parse throws (the parser is
an external JS builtin). The try/catch swallows every throw, so the
handler always returns; the Boolean throw marker of the ontime branch
decides whether the subsequent refetch check is reached. -/
def onmessage (fmtTime : JSValue → ReadableTime) (fmtMs : JSValue → String)
    (st : ModuleState) (parsed : Option JSValue) : ModuleState × List Effect :=
  match parsed with
  | none => (st, [])
  | some data =>
    match destructure data with
    | .error _ => (st, [])
    | .ok (ty, payload) =>
      if truthy ty then
        match (if jsStrictEqStr ty "ontime"
               then handleOntimeMsg fmtTime fmtMs st payload
               else (st, [], false)) with
        | (st1, effs, true) => (st1, effs)
        | (st1, effs, false) =>
            if jsStrictEqStr ty "ontime-refetch" then
              ({ st1 with events := [] },
               effs ++ [.logMsg "debug" "refetching events", .startInitEvents])
            else (st1, effs)
      else (st, [])

/-- The arrow function of `res.data.map` on source lines 168-171,
applied left to right; the object literal reads `evt.id` before
`evt.title`, and either read throws on a `null` element. -/
def mapEvents : List JSValue → Except Unit (List EventChoice)
  | [] => .ok []
  | e :: rest =>
      bindE (getProp e "id") fun i =>
      bindE (getProp e "title") fun l =>
      bindE (mapEvents rest) fun tail =>
      .ok (⟨i, l⟩ :: tail)

/-- `initEvents` (source lines 163-176). The input is the outcome of the
awaited `axios.get`: `.error e` when the request rejects (network
error, non-2xx, body parse error), `.ok data` with the response body
otherwise. The catch block logs and rethrows nothing, so the function
always resolves. The length logged for a non-array body and the
message text of a TypeError are approximated; no claim depends on
them. -/
def initEvents (st : ModuleState) (res : Except String JSValue) : ModuleState × List Effect :=
  let pre : List Effect := [.logMsg "debug" "fetching events from ontime"]
  let failLogs : String → List Effect := fun e =>
    [.logMsg "error" "failed to fetch events from ontime", .logMsg "error" e]
  match res with
  | .error e => (st, pre ++ failLogs e)
  | .ok (.arr elems) =>
      let lenLog : Effect := .logMsg "debug" ("fetched " ++ toString elems.length ++ " events")
      match mapEvents elems with
      | .ok evs => ({ st with events := evs }, pre ++ [lenLog])
      | .error _ => (st, pre ++ [lenLog] ++ failLogs "TypeError")
  | .ok .null => (st, pre ++ failLogs "TypeError")
  | .ok .undefined => (st, pre ++ failLogs "TypeError")
  | .ok _ =>
      (st, pre ++ [.logMsg "debug" "fetched undefined events"] ++ failLogs "TypeError")

/-- The module-level connection variables of source lines 8-11:
whether a socket object exists (`ws` non-null), whether its ready
state is CLOSED, whether a scheduled reconnect callback is still
pending (its handle neither fired nor cleared), and the
`shouldReconnect` flag. A close event overwrites the stored timer
handle, so the model tracks the most recently scheduled timer. -/
structure ConnState where
  wsExists : Bool
  wsClosed : Bool
  timerPending : Bool
  shouldReconnect : Bool
  deriving DecidableEq

/-- The events the connection manager reacts to: the socket open and
close callbacks, the reconnect timer firing, an external call of
`connect`, and an external call of `disconnectSocket`. -/
inductive ConnEv where
  | sockOpen
  | sockClose (code : String)
  | timerFire
  | connectReq
  | disconnectReq
  deriving DecidableEq

/-- `ws.onopen` (source lines 36-40): clears any pending reconnect
timer and reports status Ok. -/
def wsOnOpen (s : ConnState) : ConnState × List Effect :=
  ({ s with timerPending := false },
   [.clearReconnectTimer, .updateStatus "Ok" none, .logMsg "debug" "Socket connected"])

/-- `ws.onclose` (source lines 42-52): logs and reports the close, and
schedules exactly one reconnect timer iff `shouldReconnect` holds. -/
def wsOnClose (code : String) (s : ConnState) : ConnState × List Effect :=
  let base : List Effect :=
    [.logMsg "debug" ("Connection closed with code " ++ code),
     .updateStatus "Disconnected" (some ("Connection closed with code " ++ code))]
  if s.shouldReconnect then
    ({ s with wsClosed := true, timerPending := true },
     base ++ [.scheduleReconnect reconnectInterval])
  else ({ s with wsClosed := true }, base)

/-- The body of the `setTimeout` callback of source lines 46-50:
re-validates that the socket exists and is fully closed before
attempting a new connection. -/
def reconnectTimerCallback (s : ConnState) : ConnState × List Effect :=
  if s.wsExists && s.wsClosed then (s, [.connectAttempt]) else (s, [])

/-- `disconnectSocket` (source lines 140-146): permanently turns off
reconnection, clears a pending timer and closes the socket if any. -/
def disconnectSocket (s : ConnState) : ConnState × List Effect :=
  ({ s with shouldReconnect := false, timerPending := false },
   (if s.timerPending then [Effect.clearReconnectTimer] else []) ++
   (if s.wsExists then [Effect.closeSocket] else []))

/-- One step of the connection lifecycle. A timer fire only runs the
callback when the timer is still pending (a cleared timer never
fires). An external `connect` call installs a fresh socket; the
synchronous connect body (source lines 13-38) never writes
`shouldReconnect`. -/
def connStep (s : ConnState) : ConnEv → ConnState × List Effect
  | .sockOpen => wsOnOpen s
  | .sockClose code => wsOnClose code s
  | .timerFire =>
      if s.timerPending then reconnectTimerCallback { s with timerPending := false }
      else (s, [])
  | .connectReq => ({ s with wsExists := true, wsClosed := false }, [])
  | .disconnectReq => disconnectSocket s

/-- The module-level initial values of source lines 8-11: `ws = null`,
`reconnectionTimeout = null`, `shouldReconnect = true`. -/
def connInit : ConnState :=
  { wsExists := false, wsClosed := false, timerPending := false, shouldReconnect := true }

/-- Run a sequence of lifecycle events, collecting all effects. -/
def runTrace : ConnState → List ConnEv → ConnState × List Effect
  | s, [] => (s, [])
  | s, e :: rest =>
      let r1 := connStep s e
      let r2 := runTrace r1.1 rest
      (r2.1, r1.2 ++ r2.2)

/-- Recognizes the scheduling of a reconnect timer among effects. -/
def isScheduleEffect : Effect → Bool
  | .scheduleReconnect _ => true
  | _ => false

/-! ### Helper lemmas -/

theorem lookupField_setField_self (fs : List (String × JSValue)) (k : String) (v : JSValue) :
    lookupField (setField fs k v) k = some v := by
  induction fs with
  | nil => simp [setField, lookupField]
  | cons hd tl ih =>
      obtain ⟨k2, w⟩ := hd
      by_cases h : k2 = k
      · simp [setField, lookupField, h]
      · simp [setField, lookupField, h, ih]

theorem getProp_of_not_nullish (v : JSValue) (k : String)
    (h1 : v ≠ .null) (h2 : v ≠ .undefined) :
    getProp v k = .ok (propOrUndef v k) := by
  cases v <;> simp_all [getProp, propOrUndef]

/-! ### Claim theorems -/

/-- Claim C1 (code bug): the source computes a scheme-stripped host on
line 31 but discards the result, so for the configured host
`http://localhost` and port `4001` the socket is opened to
`ws://http://localhost:4001/ws` and not to the URI built from the
stripped host, as the claim (and the intent of line 31) state. -/
theorem connect_url_keeps_scheme_at_http_host :
    (connect (.str "http://localhost") (.str "4001") false).1
        = some "ws://http://localhost:4001/ws"
    ∧ stripScheme "http://localhost" = "localhost"
    ∧ ("ws://http://localhost:4001/ws" : String)
        ≠ "ws://" ++ stripScheme "http://localhost" ++ ":4001/ws" :=
  ⟨rfl, rfl, by decide⟩

/-- Claim C4: a frame whose data is not syntactically valid JSON (the
parse outcome is `none`) leaves the handler without a throw, with the
stored RemoteState and event directory unchanged and no host calls
(no variables published, no feedbacks checked). -/
theorem invalid_json_frame_is_noop (fmtTime : JSValue → ReadableTime)
    (fmtMs : JSValue → String) (st : ModuleState) :
    onmessage fmtTime fmtMs st none = (st, []) := rfl

/-- Claim C5, amended: when the HTTP GET fails, `initEvents` does not
throw and logs the error, but it leaves the event directory unchanged
rather than empty (the catch block never writes `self.events`); the
directory is empty afterwards only when it was empty before the call,
as on the ontime-refetch path which clears it first. -/
theorem initEvents_failure_leaves_directory_unchanged
    (st : ModuleState) (e : String) :
    initEvents st (.error e)
      = (st, [.logMsg "debug" "fetching events from ontime",
              .logMsg "error" "failed to fetch events from ontime",
              .logMsg "error" e]) := rfl

/-- Claim C5, counterexample to the claim as stated: a run of
`initEvents` whose GET fails while the directory holds one entry
leaves that entry in place, so the directory is not empty afterwards. -/
theorem initEvents_failure_keeps_nonempty_directory :
    (initEvents ⟨.undefined, [⟨.str "1", .str "Open"⟩]⟩ (.error "network error")).1.events
        = [⟨.str "1", .str "Open"⟩]
    ∧ ([⟨.str "1", .str "Open"⟩] : List EventChoice) ≠ [] :=
  ⟨rfl, by simp⟩

/-- Claim C7: when the configured host or port is falsy, `connect`
reports a BadConfig status and returns early: no socket is opened, no
pre-existing socket is closed, and nothing else happens. -/
theorem connect_missing_config_returns_early
    (host port : JSValue) (wsExists : Bool)
    (h : truthy host = false ∨ truthy port = false) :
    connect host port wsExists
      = (none, [.updateStatus "BadConfig" (some "no host and/or port defined")]) := by
  unfold connect
  rcases h with h | h <;> simp [h]

/-- Witness for C7 at a concrete input: an undefined host with a
configured port takes the early-return branch. -/
theorem connect_missing_config_instance :
    connect .undefined (.str "4001") false
      = (none, [.updateStatus "BadConfig" (some "no host and/or port defined")]) :=
  connect_missing_config_returns_early .undefined (.str "4001") false (Or.inl rfl)

/-- Claim C6: a parsed message whose `type` property is neither the
string `ontime` nor the string `ontime-refetch` (absent and falsy
values included, since they never satisfy the strict equalities) makes
the handler publish no variables, check no feedbacks, and leave the
stored RemoteState and event directory unchanged. -/
theorem unrecognized_type_message_is_noop
    (fmtTime : JSValue → ReadableTime) (fmtMs : JSValue → String)
    (st : ModuleState) (data ty payload : JSValue)
    (hdest : destructure data = .ok (ty, payload))
    (h1 : jsStrictEqStr ty "ontime" = false)
    (h2 : jsStrictEqStr ty "ontime-refetch" = false) :
    onmessage fmtTime fmtMs st (some data) = (st, []) := by
  simp only [onmessage, hdest]
  cases hty : truthy ty
  · simp [hty]
  · simp [hty, h1, h2]

/-- Witness for C6 at a concrete input: a message with the unrecognized
type `hello` is a no-op. -/
theorem unrecognized_type_message_instance :
    onmessage (fun _ => ⟨"00", "00", "00"⟩) (fun _ => "0") ⟨.undefined, []⟩
        (some (.obj [("type", .str "hello")]))
      = (⟨.undefined, []⟩, []) :=
  unrecognized_type_message_is_noop _ _ ⟨.undefined, []⟩ (.obj [("type", .str "hello")])
    (.str "hello") .undefined rfl rfl rfl

/-- After a successful read of the timer fields, the new module state
is the payload with the derived `isNegative` field committed; this
holds whether or not a later property read of the variable map
throws (both arms of the inner match carry the same state). -/
theorem handleOntimeMsg_fst_of_readTimer
    (fmtTime : JSValue → ReadableTime) (fmtMs : JSValue → String)
    (st : ModuleState) (payload : JSValue)
    (t6 : JSValue × JSValue × JSValue × JSValue × JSValue × JSValue)
    (h : readTimer payload = .ok t6) :
    (handleOntimeMsg fmtTime fmtMs st payload).1
      = { st with states := setProp payload "isNegative" (.bool (jsLtZero t6.2.2.2.2.2)) } := by
  obtain ⟨cur, clk, startedAt, expectedFinish, addedTime, currentAgain⟩ := t6
  cases hbv : buildVarMap (fmtTime cur) (fmtTime clk) (fmtTime startedAt)
      (fmtTime expectedFinish) (fmtMs addedTime)
      (setProp payload "isNegative" (.bool (jsLtZero currentAgain))) <;>
    simp [handleOntimeMsg, h, hbv]

/-- Claim C3: a well-formed ontime message replaces the stored
RemoteState wholesale with the payload — the resulting state is a
function of the payload alone, with no contribution from the previous
state — and its derived `isNegative` field is true exactly when the
timer.current value of the payload is negative. -/
theorem ontime_message_replaces_state_and_sets_isNegative
    (fmtTime : JSValue → ReadableTime) (fmtMs : JSValue → String)
    (st : ModuleState) (data : JSValue)
    (pf tfs : List (String × JSValue)) (c : Int)
    (hdest : destructure data = .ok (.str "ontime", .obj pf))
    (htimer : lookupField pf "timer" = some (.obj tfs))
    (hcur : lookupField tfs "current" = some (.num c)) :
    ((onmessage fmtTime fmtMs st (some data)).1).states
        = setProp (.obj pf) "isNegative" (.bool (decide (c < 0)))
    ∧ (getProp ((onmessage fmtTime fmtMs st (some data)).1).states "isNegative"
        = .ok (.bool true) ↔ c < 0) := by
  have hread : readTimer (.obj pf)
      = .ok (.num c, (lookupField tfs "clock").getD .undefined,
             (lookupField tfs "startedAt").getD .undefined,
             (lookupField tfs "expectedFinish").getD .undefined,
             (lookupField tfs "addedTime").getD .undefined, .num c) := by
    simp [readTimer, bindE, getProp2, getProp, htimer, hcur]
  have hfst1 := handleOntimeMsg_fst_of_readTimer fmtTime fmtMs st (.obj pf) _ hread
  have hfst : (onmessage fmtTime fmtMs st (some data)).1
      = { st with states := setProp (.obj pf) "isNegative" (.bool (jsLtZero (.num c))) } := by
    simp only [onmessage, hdest]
    rcases hms : handleOntimeMsg fmtTime fmtMs st (.obj pf) with ⟨st1, effs, thrw⟩
    rw [hms] at hfst1
    cases thrw <;> simp_all [truthy, jsStrictEqStr]
  rw [hfst]
  constructor
  · simp [jsLtZero, jsToNumber]
  · simp [setProp, getProp, lookupField_setField_self, jsLtZero, jsToNumber]

/-- Witness for C3 at concrete inputs: a payload with timer.current
equal to -500 yields a true `isNegative`; with timer.current equal to
0 it does not. -/
theorem ontime_message_isNegative_instance :
    getProp ((onmessage (fun _ => ⟨"00", "00", "00"⟩) (fun _ => "0") ⟨.undefined, []⟩
        (some (.obj [("type", .str "ontime"),
                     ("payload", .obj [("timer", .obj [("current", .num (-500))])])]))).1).states
        "isNegative" = .ok (.bool true)
    ∧ ¬ (getProp ((onmessage (fun _ => ⟨"00", "00", "00"⟩) (fun _ => "0") ⟨.undefined, []⟩
        (some (.obj [("type", .str "ontime"),
                     ("payload", .obj [("timer", .obj [("current", .num 0)])])]))).1).states
        "isNegative" = .ok (.bool true)) :=
  ⟨(ontime_message_replaces_state_and_sets_isNegative _ _ ⟨.undefined, []⟩
      (.obj [("type", .str "ontime"),
             ("payload", .obj [("timer", .obj [("current", .num (-500))])])])
      [("timer", .obj [("current", .num (-500))])] [("current", .num (-500))] (-500)
      rfl rfl rfl).2.mpr (by decide),
   fun hc => absurd ((ontime_message_replaces_state_and_sets_isNegative _ _ ⟨.undefined, []⟩
      (.obj [("type", .str "ontime"),
             ("payload", .obj [("timer", .obj [("current", .num 0)])])])
      [("timer", .obj [("current", .num 0)])] [("current", .num 0)] 0
      rfl rfl rfl).2.mp hc) (by decide)⟩

/-- Claim C9: an ontime message whose payload lacks the timer object
(reading `payload.timer.current` throws) still commits
`self.states = payload` — the assignment of line 71 precedes every
field read — while the throw, swallowed by the catch, prevents any
variable publication and any feedback check. -/
theorem ontime_message_missing_timer_still_replaces_state
    (fmtTime : JSValue → ReadableTime) (fmtMs : JSValue → String)
    (st : ModuleState) (data payload : JSValue)
    (hdest : destructure data = .ok (.str "ontime", payload))
    (hcur : getProp2 payload "timer" "current" = .error ()) :
    onmessage fmtTime fmtMs st (some data) = ({ st with states := payload }, []) := by
  have hread : readTimer payload = .error () := by
    simp [readTimer, bindE, hcur]
  simp only [onmessage, hdest]
  simp [truthy, jsStrictEqStr, handleOntimeMsg, hread]

/-- The mapping of source lines 168-171 succeeds on every list whose
elements are neither `null` nor `undefined`, and produces exactly the
id/title projection of each element. -/
theorem mapEvents_ok_of_not_nullish (elems : List JSValue)
    (h : ∀ e ∈ elems, e ≠ .null ∧ e ≠ .undefined) :
    mapEvents elems
      = .ok (elems.map (fun e => ⟨propOrUndef e "id", propOrUndef e "title"⟩)) := by
  induction elems with
  | nil => rfl
  | cons e rest ih =>
      obtain ⟨⟨h1, h2⟩, hrest⟩ : (e ≠ JSValue.null ∧ e ≠ JSValue.undefined)
          ∧ ∀ x ∈ rest, x ≠ JSValue.null ∧ x ≠ JSValue.undefined := by
        refine ⟨h e (by simp), fun x hx => h x (by simp [hx])⟩
      simp [mapEvents, bindE, getProp_of_not_nullish e _ h1 h2, ih hrest]

/-- Claim C8, amended: when the HTTP GET succeeds with a JSON array
none of whose elements is null, the event directory afterwards equals
exactly the array obtained by mapping each element to the record with
id `element.id` and label `element.title` (undefined for an absent
field), replacing any previous directory wholesale; an array with a
null element makes the per-element property read throw, which the
catch swallows, leaving the directory unchanged. -/
theorem initEvents_array_success_maps_events
    (st : ModuleState) (elems : List JSValue)
    (h : ∀ e ∈ elems, e ≠ .null ∧ e ≠ .undefined) :
    (initEvents st (.ok (.arr elems))).1.events
      = elems.map (fun e => ⟨propOrUndef e "id", propOrUndef e "title"⟩) := by
  simp [initEvents, mapEvents_ok_of_not_nullish elems h]

/-- Witness for C8 at the concrete input of the spec: a response of one
element with id 1 and title Open replaces a non-empty prior directory
with exactly the entry id 1, label Open. -/
theorem initEvents_array_success_instance :
    (initEvents ⟨.undefined, [⟨.str "0", .str "Old"⟩]⟩
        (.ok (.arr [.obj [("id", .str "1"), ("title", .str "Open")]]))).1.events
      = [⟨.str "1", .str "Open"⟩] := by
  have h := initEvents_array_success_maps_events ⟨.undefined, [⟨.str "0", .str "Old"⟩]⟩
      [.obj [("id", .str "1"), ("title", .str "Open")]]
      (fun e he => by
        simp only [List.mem_singleton] at he
        subst he
        exact ⟨fun hc => JSValue.noConfusion hc, fun hc => JSValue.noConfusion hc⟩)
  simpa [propOrUndef, getProp, lookupField] using h

/-- Claim C8, counterexample to the claim as stated: a successful GET
whose JSON array is the one-element array containing null does not
yield the one-element mapped directory — reading `id` of null throws,
the catch swallows the error, and the directory stays empty. -/
theorem initEvents_null_element_skips_mapping :
    (initEvents ⟨.undefined, []⟩ (.ok (.arr [.null]))).1.events = []
    ∧ getProp .null "id" = .error ()
    ∧ ([] : List EventChoice).length ≠ [JSValue.null].length :=
  ⟨rfl, rfl, by simp⟩

/-- Witness for C9 at a concrete input: an ontime message whose payload
is an object without a `timer` field replaces the stored state and
produces no effects. -/
theorem ontime_missing_timer_instance :
    onmessage (fun _ => ⟨"00", "00", "00"⟩) (fun _ => "0") ⟨.undefined, []⟩
        (some (.obj [("type", .str "ontime"),
                     ("payload", .obj [("playback", .str "play")])]))
      = (⟨.obj [("playback", .str "play")], []⟩, []) :=
  ontime_message_missing_timer_still_replaces_state _ _ ⟨.undefined, []⟩
    (.obj [("type", .str "ontime"), ("payload", .obj [("playback", .str "play")])])
    (.obj [("playback", .str "play")]) rfl rfl

/-- Claim C2: a close event while reconnection is enabled schedules
exactly one reconnect timer, with the fixed delay `reconnectInterval`;
and when `disconnectSocket` runs before that timer fires, the cleared
timer produces no connection attempt (the fire is a no-op). -/
theorem close_schedules_single_reconnect_and_disconnect_cancels
    (s : ConnState) (code : String) (h : s.shouldReconnect = true) :
    (connStep s (.sockClose code)).2.filter isScheduleEffect
        = [.scheduleReconnect reconnectInterval]
    ∧ connStep ((connStep (connStep s (.sockClose code)).1 .disconnectReq).1) .timerFire
        = ((connStep (connStep s (.sockClose code)).1 .disconnectReq).1, []) := by
  constructor
  · simp [connStep, wsOnClose, h, isScheduleEffect]
  · simp [connStep, wsOnClose, h, disconnectSocket]

/-- Witness for C2 at a concrete input: from the initial connection
state, a close with code 1006 schedules one reconnect after 1000 ms,
and a disconnect before the fire makes the fire a no-op. -/
theorem close_reconnect_cancel_instance :
    (connStep connInit (.sockClose "1006")).2.filter isScheduleEffect
        = [.scheduleReconnect reconnectInterval]
    ∧ connStep ((connStep (connStep connInit (.sockClose "1006")).1 .disconnectReq).1) .timerFire
        = ((connStep (connStep connInit (.sockClose "1006")).1 .disconnectReq).1, []) :=
  close_schedules_single_reconnect_and_disconnect_cancels connInit "1006" rfl

/-- Claim C10: the module-level `shouldReconnect` flag starts true,
only the disconnect operation ever writes it (to false), and once it
is false no sequence of further events — connect calls, socket opens,
closes, timer fires — ever schedules a reconnect timer again or makes
the flag true again. -/
theorem shouldReconnect_monotone_false_after_disconnect :
    connInit.shouldReconnect = true
    ∧ (∀ (s : ConnState) (e : ConnEv),
        (connStep s e).1.shouldReconnect
          = if e = .disconnectReq then false else s.shouldReconnect)
    ∧ (∀ (s : ConnState) (evs : List ConnEv), s.shouldReconnect = false →
        (runTrace s evs).2.filter isScheduleEffect = []
        ∧ (runTrace s evs).1.shouldReconnect = false) := by
  refine ⟨rfl, ?_, ?_⟩
  · intro s e
    cases e with
    | sockOpen => simp [connStep, wsOnOpen]
    | sockClose code =>
        cases hs : s.shouldReconnect <;> simp [connStep, wsOnClose, hs]
    | timerFire =>
        cases hp : s.timerPending
        · simp [connStep, hp]
        · cases hw : s.wsExists <;> cases hc : s.wsClosed <;>
            simp [connStep, reconnectTimerCallback, hp, hw, hc]
    | connectReq => simp [connStep]
    | disconnectReq => simp [connStep, disconnectSocket]
  · intro s evs
    induction evs generalizing s with
    | nil => intro hs; exact ⟨rfl, hs⟩
    | cons e rest ih =>
        intro hs
        have hstep : (connStep s e).2.filter isScheduleEffect = []
            ∧ (connStep s e).1.shouldReconnect = false := by
          cases e with
          | sockOpen => simp [connStep, wsOnOpen, isScheduleEffect, hs]
          | sockClose code => simp [connStep, wsOnClose, hs, isScheduleEffect]
          | timerFire =>
              cases hp : s.timerPending
              · simp [connStep, hp, hs, isScheduleEffect]
              · cases hw : s.wsExists <;> cases hc : s.wsClosed <;>
                  simp [connStep, reconnectTimerCallback, hp, hw, hc, hs, isScheduleEffect]
          | connectReq => simp [connStep, hs, isScheduleEffect]
          | disconnectReq =>
              cases hp : s.timerPending <;> cases hw : s.wsExists <;>
                simp [connStep, disconnectSocket, hp, hw, hs, isScheduleEffect]
        have hrest := ih (connStep s e).1 hstep.2
        refine ⟨?_, ?_⟩
        · simp [runTrace, List.filter_append, hstep.1, hrest.1]
        · simp [runTrace, hrest.2]

/-- Witness for C10 at a concrete input: after one disconnect from the
initial state, the trace connect, close, timer-fire schedules no
reconnect. -/
theorem shouldReconnect_disconnect_instance :
    (runTrace (connStep connInit .disconnectReq).1
        [.connectReq, .sockClose "1006", .timerFire]).2.filter isScheduleEffect = [] :=
  (shouldReconnect_monotone_false_after_disconnect.2.2
    (connStep connInit .disconnectReq).1 [.connectReq, .sockClose "1006", .timerFire] rfl).1

end Ontime
